import Mathlib

/-!
Shallow embedding of the digital-products store backend (`main.py`).

Modelling conventions:
- Timestamps are `Int` epoch seconds (`timedelta(days=7)` is `7 * 86400`).
- Python floats (product prices, order amounts) are modelled as exact
  rationals `ℚ`; `round(x, 2)` is modelled by `pyRound2` (round half to even,
  as Python's `round` does).
- MongoDB is modelled by `Store`: one list of documents per collection, and
  `find_one` returns the first matching document in insertion order.
- A handler outcome is `Except PyError α`: `PyError.http` is an
  `HTTPException(status_code, detail)`, `PyError.valueError` a raised
  `ValueError`, and `PyError.typeError` a raised `TypeError`.
- `datetime.fromisoformat` is an external stdlib function; handlers take it
  as an explicit parameter `parse : String → Option Int` (`none` = the call
  raised), so theorems quantify over its behaviour rather than re-implement
  it.
- `secrets.token_urlsafe(24)` is modelled by a token source
  `tokens : Nat → String` giving the token minted at each loop iteration.
-/

/-- Python-level error outcomes of a request handler. -/
inductive PyError where
  | http (status : Nat) (detail : String)
  | valueError (msg : String)
  | typeError
deriving DecidableEq

/-- A cart item: `CartItem(product_id, quantity)` from `main.py`. -/
structure CartItem where
  product_id : String
  quantity : Nat
deriving DecidableEq

/-- A stored product document (collection `product`). -/
structure ProductDoc where
  id : String
  title : String
  description : Option String
  price : ℚ
  thumbnail_url : Option String
  file_url : Option String
deriving DecidableEq

/-- A value stored in a download link's `expires_at` field: either a
datetime (modelled as epoch seconds) or a raw string. `Option TimeVal` with
`none` models an absent or null field. -/
inductive TimeVal where
  | dt (t : Int)
  | str (s : String)
deriving DecidableEq

/-- An embedded download-link document: `{product_id, token, expires_at}`. -/
structure LinkDoc where
  product_id : String
  token : String
  expires_at : Option TimeVal
deriving DecidableEq

/-- A stored order document (collection `order`). -/
structure OrderDoc where
  id : String
  status : String
  amount : ℚ
  items : List CartItem
  customer_name : String
  customer_email : String
  download_links : List LinkDoc
deriving DecidableEq

/-- Modelled from the spec: the document store holds one collection per
entity (`product`, `order`); `create` appends a document and assigns an id,
`find` scans in insertion order. (`database.py` is an external collaborator;
only this interface is specified.) -/
structure Store where
  products : List ProductDoc
  orders : List OrderDoc
deriving DecidableEq

/-- The request body of `POST /api/orders`: `OrderIn` from `main.py`. The
pydantic model places no constraint on `customer_name`, `customer_email` or
the length of `items` (only `CartItem.quantity` is bounded, at parse time). -/
structure OrderIn where
  customer_name : String
  customer_email : String
  items : List CartItem
deriving DecidableEq

/-- Successful payload of `GET /api/download/{token}`: the product document
and its `file_url` (the fixed `message` string is omitted). -/
structure ResolveOk where
  product : ProductDoc
  file_url : String
deriving DecidableEq

/-- A string is accepted by `bson.ObjectId(str(v))` iff it is a 24-character
hexadecimal string. -/
def isValidObjectId (s : String) : Bool :=
  s.length == 24 && s.toList.all (fun c =>
    c.isDigit || ('a' ≤ c && c ≤ 'f') || ('A' ≤ c && c ≤ 'F'))

/-- `PyObjectId.validate`: return the id if it parses as an ObjectId,
otherwise raise `ValueError("Invalid ObjectId")`. -/
def PyObjectId.validate (v : String) : Except PyError String :=
  if isValidObjectId v then Except.ok v
  else Except.error (PyError.valueError "Invalid ObjectId")

/-- `db["product"].find_one({"_id": oid})`: first stored product with this
id. -/
def lookupProduct (s : Store) (oid : String) : Option ProductDoc :=
  s.products.find? (fun p => p.id == oid)

/-- `db["order"].find_one({"download_links.token": token})`: first stored
order one of whose download links carries this token. -/
def findOrderWithToken (s : Store) (token : String) : Option OrderDoc :=
  s.orders.find? (fun o => o.download_links.any (fun dl => dl.token == token))

/-- Round half to even to the nearest integer (the rounding Python's
`round` uses). -/
def roundHalfEven (q : ℚ) : ℤ :=
  let f : ℤ := ⌊q⌋
  let r : ℚ := q - (f : ℚ)
  if r < 1 / 2 then f
  else if 1 / 2 < r then f + 1
  else if f % 2 = 0 then f else f + 1

/-- `round(x, 2)` on an amount. -/
def pyRound2 (q : ℚ) : ℚ := ((roundHalfEven (q * 100) : ℤ) : ℚ) / 100

/-- The validation loop of `create_order`: for each item in order, parse the
product id (`PyObjectId.validate`), look the product up, and accumulate
`price * quantity`; the first failure aborts the whole operation. Returns
the unrounded total. -/
def validateItems (s : Store) : List CartItem → Except PyError ℚ
  | [] => Except.ok 0
  | item :: rest =>
    match PyObjectId.validate item.product_id with
    | Except.error e => Except.error e
    | Except.ok oid =>
      match lookupProduct s oid with
      | none =>
        Except.error (PyError.http 404 ("Product not found: " ++ item.product_id))
      | some prod =>
        match validateItems s rest with
        | Except.error e => Except.error e
        | Except.ok sub => Except.ok (prod.price * (item.quantity : ℚ) + sub)

/-- The id `create_document` assigns to the new order document. -/
def freshOrderId (s : Store) : String := "order" ++ Nat.repr s.orders.length

/-- The token-minting loop of `create_order`, carrying the loop counter:
one link per validated item, with that item's `product_id`, the token minted
at that iteration, and the single `expires_at` computed before the loop. -/
def mintLinksAux (tokens : Nat → String) (exp : Int) : List CartItem → Nat → List LinkDoc
  | [], _ => []
  | item :: rest, i =>
    { product_id := item.product_id, token := tokens i,
      expires_at := some (TimeVal.dt exp) } :: mintLinksAux tokens exp rest (i + 1)

/-- The token-minting loop of `create_order`, started at iteration 0. -/
def mintLinks (items : List CartItem) (tokens : Nat → String) (exp : Int) : List LinkDoc :=
  mintLinksAux tokens exp items 0

/-- `create_order` (`POST /api/orders`): validate every item and compute the
total, then set `status = "paid"`, mint one download link per item with
`expires_at = now + 7 days`, persist the order document, and return it.
On error nothing is written, so only the success case carries a new store. -/
def create_order (s : Store) (payload : OrderIn) (now : Int) (tokens : Nat → String) :
    Except PyError (Store × OrderDoc) :=
  match validateItems s payload.items with
  | Except.error e => Except.error e
  | Except.ok total =>
    let expires : Int := now + 7 * 86400
    let doc : OrderDoc :=
      { id := freshOrderId s
        status := "paid"
        amount := pyRound2 total
        items := payload.items
        customer_name := payload.customer_name
        customer_email := payload.customer_email
        download_links := mintLinks payload.items tokens expires }
    Except.ok ({ s with orders := s.orders ++ [doc] }, doc)

/-- The expiry check of `resolve_download`, lines 209-217 of `main.py`:
`expires_at = link.get("expires_at")`; if it is a string, try
`datetime.fromisoformat` and on failure keep the string; then
`if expires_at and now > expires_at.replace(tzinfo=utc): raise 410`.
A datetime is always truthy; a string is truthy iff nonempty, and calling
`.replace(tzinfo=...)` on a string raises `TypeError`. -/
def expiryCheck (e : Option TimeVal) (now : Int) (parse : String → Option Int) :
    Except PyError Unit :=
  match e with
  | none => Except.ok ()
  | some (TimeVal.dt t) =>
    if now > t then Except.error (PyError.http 410 "Link expired") else Except.ok ()
  | some (TimeVal.str s) =>
    match parse s with
    | some t =>
      if now > t then Except.error (PyError.http 410 "Link expired") else Except.ok ()
    | none =>
      if s = "" then Except.ok () else Except.error PyError.typeError

/-- The result computed by `resolve_download` (`GET /api/download/{token}`):
find the order holding the token, find the matching link, check expiry,
re-fetch the product, and require a nonempty `file_url`. -/
def resolveResult (s : Store) (token : String) (now : Int)
    (parse : String → Option Int) : Except PyError ResolveOk :=
  match findOrderWithToken s token with
  | none => Except.error (PyError.http 404 "Invalid token")
  | some order =>
    match order.download_links.find? (fun dl => dl.token == token) with
    | none => Except.error (PyError.http 404 "Download not found")
    | some link =>
      match expiryCheck link.expires_at now parse with
      | Except.error e => Except.error e
      | Except.ok _ =>
        match PyObjectId.validate link.product_id with
        | Except.error e => Except.error e
        | Except.ok oid =>
          match lookupProduct s oid with
          | none => Except.error (PyError.http 404 "Product not found")
          | some prod =>
            match prod.file_url with
            | none =>
              Except.error (PyError.http 404 "File not available for this product")
            | some u =>
              if u = "" then
                Except.error (PyError.http 404 "File not available for this product")
              else Except.ok { product := prod, file_url := u }

/-- `resolve_download` with the store threaded through: the handler performs
only `find_one` reads, so the store it leaves behind is the one it was
given. -/
def resolve_download (s : Store) (token : String) (now : Int)
    (parse : String → Option Int) : Except PyError ResolveOk × Store :=
  (resolveResult s token now parse, s)

/-- The sum the spec asks for: `Σ price_i * quantity_i` over the cart, with
each price read from the store at call time. -/
def cartTotal (s : Store) (items : List CartItem) : ℚ :=
  (items.map (fun it =>
    (((lookupProduct s it.product_id).map ProductDoc.price).getD 0) * (it.quantity : ℚ))).sum

/-! Concrete fixtures used to evaluate the operations on closed inputs. -/

/-- A deterministic stand-in for the `secrets.token_urlsafe(24)` stream. -/
def tkFn : Nat → String := fun n => "tok" ++ Nat.repr n

/-- A `datetime.fromisoformat` stand-in that rejects every string. -/
def isoNone : String → Option Int := fun _ => none

/-- A stored product with no `file_url`. -/
def prodNoFile : ProductDoc :=
  { id := "aaaaaaaaaaaaaaaaaaaaaaaa", title := "Ebook", description := none,
    price := 999 / 100, thumbnail_url := none, file_url := none }

/-- A stored product with a deliverable `file_url`. -/
def prodWithFile : ProductDoc :=
  { id := "bbbbbbbbbbbbbbbbbbbbbbbb", title := "Ebook", description := none,
    price := 999 / 100, thumbnail_url := none, file_url := some "https://x/e.pdf" }

/-- An order holding token `"T"` for `prodNoFile`, expiring at time 100. -/
def ordNoFile : OrderDoc :=
  { id := "o1", status := "paid", amount := 0, items := [],
    customer_name := "n", customer_email := "e",
    download_links := [{ product_id := "aaaaaaaaaaaaaaaaaaaaaaaa", token := "T",
                         expires_at := some (TimeVal.dt 100) }] }

/-- An order holding token `"T"` for `prodWithFile` whose `expires_at` is an
unparseable nonempty string. -/
def ordBadExp : OrderDoc :=
  { id := "o2", status := "paid", amount := 0, items := [],
    customer_name := "n", customer_email := "e",
    download_links := [{ product_id := "bbbbbbbbbbbbbbbbbbbbbbbb", token := "T",
                         expires_at := some (TimeVal.str "not-a-date") }] }

/-- An order holding token `"T"` for `prodWithFile`, expired at time -1. -/
def ordExpired : OrderDoc :=
  { id := "o3", status := "paid", amount := 0, items := [],
    customer_name := "n", customer_email := "e",
    download_links := [{ product_id := "bbbbbbbbbbbbbbbbbbbbbbbb", token := "T",
                         expires_at := some (TimeVal.dt (-1)) }] }

/-- An order holding token `"T"` whose link's `product_id` is not a valid
ObjectId and which has no `expires_at`. -/
def ordBadPid : OrderDoc :=
  { id := "o4", status := "paid", amount := 0, items := [],
    customer_name := "n", customer_email := "e",
    download_links := [{ product_id := "nothex", token := "T",
                         expires_at := none }] }

/-- An order holding token `"T"` for `prodWithFile` with no `expires_at`. -/
def ordNoExp : OrderDoc :=
  { id := "o5", status := "paid", amount := 0, items := [],
    customer_name := "n", customer_email := "e",
    download_links := [{ product_id := "bbbbbbbbbbbbbbbbbbbbbbbb", token := "T",
                         expires_at := none }] }

/-- A cart item ordering two copies of `prodWithFile`. -/
def itemB : CartItem := { product_id := "bbbbbbbbbbbbbbbbbbbbbbbb", quantity := 2 }

/-! Helper lemmas about the embedded operations. -/

theorem pyRound2_zero : pyRound2 0 = 0 := by
  norm_num [pyRound2, roundHalfEven]

theorem mintLinksAux_length (tokens : Nat → String) (exp : Int)
    (items : List CartItem) (i : Nat) :
    (mintLinksAux tokens exp items i).length = items.length := by
  induction items generalizing i with
  | nil => rfl
  | cons item rest ih => simp [mintLinksAux, ih]

theorem mintLinksAux_get (tokens : Nat → String) (exp : Int)
    (items : List CartItem) (i k : Nat) (hk : k < items.length)
    (hk2 : k < (mintLinksAux tokens exp items i).length) :
    (mintLinksAux tokens exp items i).get ⟨k, hk2⟩ =
      { product_id := (items.get ⟨k, hk⟩).product_id, token := tokens (i + k),
        expires_at := some (TimeVal.dt exp) } := by
  induction items generalizing i k with
  | nil => exact absurd hk (by simp)
  | cons item rest ih =>
    cases k with
    | zero => simp [mintLinksAux]
    | succ k =>
      have hk' : k < rest.length := by simpa using hk
      have hk2' : k < (mintLinksAux tokens exp rest (i + 1)).length := by
        simpa [mintLinksAux_length] using hk'
      have harith : i + 1 + k = i + (k + 1) := by omega
      simp only [mintLinksAux, List.get_cons_succ]
      rw [ih (i + 1) k hk' hk2', harith]

theorem validateItems_ok_of_found (s : Store) (items : List CartItem)
    (h : ∀ it ∈ items, isValidObjectId it.product_id = true ∧
      (lookupProduct s it.product_id).isSome = true) :
    validateItems s items = Except.ok (cartTotal s items) := by
  induction items with
  | nil => rfl
  | cons item rest ih =>
    obtain ⟨hv, hs⟩ := h item (List.mem_cons_self item rest)
    obtain ⟨prod, hp⟩ := Option.isSome_iff_exists.mp hs
    have hrest := ih (fun it hit => h it (List.mem_cons_of_mem item hit))
    simp only [validateItems, PyObjectId.validate, hv, if_true, hp, hrest, cartTotal,
      List.map_cons, List.sum_cons]
    simp [cartTotal, hp]

theorem validateItems_err_of_missing (s : Store) (items : List CartItem)
    (hvalid : ∀ it ∈ items, isValidObjectId it.product_id = true)
    (hmiss : ∃ it ∈ items, lookupProduct s it.product_id = none) :
    ∃ it ∈ items, lookupProduct s it.product_id = none ∧
      validateItems s items =
        Except.error (PyError.http 404 ("Product not found: " ++ it.product_id)) := by
  induction items with
  | nil => simp at hmiss
  | cons item rest ih =>
    have hv := hvalid item (List.mem_cons_self item rest)
    cases hp : lookupProduct s item.product_id with
    | none =>
      refine ⟨item, List.mem_cons_self item rest, hp, ?_⟩
      simp [validateItems, PyObjectId.validate, hv, hp]
    | some prod =>
      have hmiss' : ∃ it ∈ rest, lookupProduct s it.product_id = none := by
        obtain ⟨it, hit, hnone⟩ := hmiss
        rcases List.mem_cons.mp hit with heq | hmem
        · subst heq; rw [hp] at hnone; exact absurd hnone (by simp)
        · exact ⟨it, hmem, hnone⟩
      obtain ⟨it, hit, hnone, herr⟩ :=
        ih (fun it2 h2 => hvalid it2 (List.mem_cons_of_mem item h2)) hmiss'
      refine ⟨it, List.mem_cons_of_mem item hit, hnone, ?_⟩
      simp [validateItems, PyObjectId.validate, hv, hp, herr]

theorem validateItems_err_invalid (s : Store) (pre : List CartItem) (item : CartItem)
    (rest : List CartItem)
    (hpre : ∀ it ∈ pre, isValidObjectId it.product_id = true ∧
      (lookupProduct s it.product_id).isSome = true)
    (hinv : isValidObjectId item.product_id = false) :
    validateItems s (pre ++ item :: rest) =
      Except.error (PyError.valueError "Invalid ObjectId") := by
  induction pre with
  | nil => simp [validateItems, PyObjectId.validate, hinv]
  | cons p pre2 ih =>
    obtain ⟨hv, hs⟩ := hpre p (List.mem_cons_self p pre2)
    obtain ⟨prod, hp⟩ := Option.isSome_iff_exists.mp hs
    have hrest := ih (fun it h => hpre it (List.mem_cons_of_mem p h))
    simp [validateItems, PyObjectId.validate, hv, hp, hrest]

theorem create_order_ok_of_found (s : Store) (payload : OrderIn) (now : Int)
    (tokens : Nat → String)
    (h : ∀ it ∈ payload.items, isValidObjectId it.product_id = true ∧
      (lookupProduct s it.product_id).isSome = true) :
    create_order s payload now tokens = Except.ok
      ({ s with orders := s.orders ++
          [{ id := freshOrderId s, status := "paid",
             amount := pyRound2 (cartTotal s payload.items), items := payload.items,
             customer_name := payload.customer_name,
             customer_email := payload.customer_email,
             download_links := mintLinks payload.items tokens (now + 7 * 86400) }] },
        { id := freshOrderId s, status := "paid",
          amount := pyRound2 (cartTotal s payload.items), items := payload.items,
          customer_name := payload.customer_name,
          customer_email := payload.customer_email,
          download_links := mintLinks payload.items tokens (now + 7 * 86400) }) := by
  simp [create_order, validateItems_ok_of_found s payload.items h]

theorem mintLinks_length (items : List CartItem) (tokens : Nat → String) (exp : Int) :
    (mintLinks items tokens exp).length = items.length := by
  simp [mintLinks, mintLinksAux_length]

theorem mintLinks_get (items : List CartItem) (tokens : Nat → String) (exp : Int)
    (k : Nat) (hk : k < items.length) (hk2 : k < (mintLinks items tokens exp).length) :
    (mintLinks items tokens exp).get ⟨k, hk2⟩ =
      { product_id := (items.get ⟨k, hk⟩).product_id, token := tokens k,
        expires_at := some (TimeVal.dt exp) } := by
  have h := mintLinksAux_get tokens exp items 0 k hk hk2
  simpa using h

/-! Claim theorems. -/

/-- C1 counterexample: a request with empty `items`, empty `customer_name`
and empty `customer_email` does not fail with a ValidationError — it
succeeds and creates one Order document with status `"paid"`. -/
theorem C1_counterexample :
    (create_order { products := [], orders := [] }
        { customer_name := "", customer_email := "", items := [] } 0 tkFn).map
      (fun r => (r.1.orders.length, r.2.status)) = Except.ok (1, "paid") := by
  rfl

/-- C1 (amended): `place_order` performs no emptiness validation: a request
whose items all reference existing products succeeds and creates exactly one
new Order document even when its items list is empty or its customer name or
email is the empty string. -/
theorem C1_no_emptiness_validation (s : Store) (p : OrderIn) (now : Int)
    (tokens : Nat → String)
    (_hempty : p.items = [] ∨ p.customer_name = "" ∨ p.customer_email = "")
    (hfound : ∀ it ∈ p.items, isValidObjectId it.product_id = true ∧
      (lookupProduct s it.product_id).isSome = true) :
    ∃ s2 od, create_order s p now tokens = Except.ok (s2, od) ∧
      s2.orders = s.orders ++ [od] ∧ s2.products = s.products :=
  ⟨_, _, create_order_ok_of_found s p now tokens hfound, rfl, rfl⟩

/-- C1 witness: the amended statement evaluated on the all-empty request. -/
theorem C1_witness :
    ∃ s2 od, create_order { products := [], orders := [] }
        { customer_name := "", customer_email := "", items := [] } 0 tkFn =
        Except.ok (s2, od) ∧
      s2.orders = ({ products := [], orders := [] } : Store).orders ++ [od] ∧
      s2.products = ({ products := [], orders := [] } : Store).products :=
  C1_no_emptiness_validation { products := [], orders := [] }
    { customer_name := "", customer_email := "", items := [] } 0 tkFn
    (Or.inl rfl) (by decide)

/-- C2: if the token resolves to an unexpired link whose product exists but
has an empty or absent `file_url`, `resolve_download` fails with the
`File not available for this product` error, which differs from the
NotFound errors for a missing token and for a missing product. -/
theorem C2_file_unavailable (s : Store) (tok : String) (now : Int)
    (parse : String → Option Int) (o : OrderDoc) (link : LinkDoc) (prod : ProductDoc)
    (ho : findOrderWithToken s tok = some o)
    (hl : o.download_links.find? (fun dl => dl.token == tok) = some link)
    (hexp : expiryCheck link.expires_at now parse = Except.ok ())
    (hv : isValidObjectId link.product_id = true)
    (hp : lookupProduct s link.product_id = some prod)
    (hf : prod.file_url = none ∨ prod.file_url = some "") :
    (resolve_download s tok now parse).1 =
      Except.error (PyError.http 404 "File not available for this product") ∧
    PyError.http 404 "File not available for this product" ≠
      PyError.http 404 "Invalid token" ∧
    PyError.http 404 "File not available for this product" ≠
      PyError.http 404 "Product not found" := by
  refine ⟨?_, by decide, by decide⟩
  rcases hf with hf | hf <;>
    simp [resolve_download, resolveResult, ho, hl, hexp, PyObjectId.validate, hv, hp, hf]

/-- C2 witness: a stored order whose link points at a product without a
`file_url`, resolved before expiry. -/
theorem C2_witness :
    prodNoFile.file_url = none ∧
    (resolve_download { products := [prodNoFile], orders := [ordNoFile] } "T" 5 isoNone).1 =
      Except.error (PyError.http 404 "File not available for this product") :=
  ⟨rfl, (C2_file_unavailable { products := [prodNoFile], orders := [ordNoFile] } "T" 5 isoNone
      ordNoFile
      { product_id := "aaaaaaaaaaaaaaaaaaaaaaaa", token := "T",
        expires_at := some (TimeVal.dt 100) }
      prodNoFile rfl rfl rfl rfl rfl (Or.inl rfl)).1⟩

/-- C3 counterexample: the item id `missing-product` refers to no existing
Product (the store is empty), yet `place_order` does not return the NotFound
error — `PyObjectId.validate` raises `ValueError("Invalid ObjectId")` first,
because the id is not a 24-character hex string. -/
theorem C3_counterexample :
    create_order { products := [], orders := [] }
        { customer_name := "a", customer_email := "b",
          items := [{ product_id := "missing-product", quantity := 1 }] } 0 tkFn =
      Except.error (PyError.valueError "Invalid ObjectId") := by
  rfl

/-- C3 (amended): when every item id is a valid ObjectId and at least one
refers to no existing Product, `place_order` fails with a NotFound error
naming a missing product id, and no order document is written (the error
branch of `create_order` carries no store). -/
theorem C3_notfound_aborts (s : Store) (p : OrderIn) (now : Int)
    (tokens : Nat → String)
    (hvalid : ∀ it ∈ p.items, isValidObjectId it.product_id = true)
    (hmiss : ∃ it ∈ p.items, lookupProduct s it.product_id = none) :
    ∃ it ∈ p.items, lookupProduct s it.product_id = none ∧
      create_order s p now tokens =
        Except.error (PyError.http 404 ("Product not found: " ++ it.product_id)) := by
  obtain ⟨it, hit, hnone, herr⟩ := validateItems_err_of_missing s p.items hvalid hmiss
  exact ⟨it, hit, hnone, by simp [create_order, herr]⟩

/-- C3 witness: a well-formed but unknown product id aborts the order with
NotFound naming that id. -/
theorem C3_witness :
    ∃ it ∈ [({ product_id := "cccccccccccccccccccccccc", quantity := 1 } : CartItem)],
      lookupProduct { products := [], orders := [] } it.product_id = none ∧
      create_order { products := [], orders := [] }
          { customer_name := "a", customer_email := "b",
            items := [{ product_id := "cccccccccccccccccccccccc", quantity := 1 }] } 0 tkFn =
        Except.error (PyError.http 404 ("Product not found: " ++ it.product_id)) :=
  C3_notfound_aborts { products := [], orders := [] }
    { customer_name := "a", customer_email := "b",
      items := [{ product_id := "cccccccccccccccccccccccc", quantity := 1 }] } 0 tkFn
    (by decide) (by decide)

/-- C4: when every item resolves to an existing product, the created order's
amount (returned and persisted) is the sum of `price * quantity` over the
items, with prices as read from the store at call time, rounded to 2
decimal places. -/
theorem C4_amount_formula (s : Store) (p : OrderIn) (now : Int)
    (tokens : Nat → String)
    (hfound : ∀ it ∈ p.items, isValidObjectId it.product_id = true ∧
      (lookupProduct s it.product_id).isSome = true) :
    ∃ s2 od, create_order s p now tokens = Except.ok (s2, od) ∧
      od.amount = pyRound2 (cartTotal s p.items) ∧
      s2.orders = s.orders ++ [od] :=
  ⟨_, _, create_order_ok_of_found s p now tokens hfound, rfl, rfl⟩

/-- C4 witness: a cart of two copies of a 9.99 product. -/
theorem C4_witness :
    (∀ it ∈ [itemB], isValidObjectId it.product_id = true ∧
      (lookupProduct { products := [prodWithFile], orders := [] } it.product_id).isSome
        = true) ∧
    ∃ s2 od, create_order { products := [prodWithFile], orders := [] }
        { customer_name := "Ada", customer_email := "a@x", items := [itemB] } 0 tkFn =
        Except.ok (s2, od) ∧
      od.amount = pyRound2 (cartTotal { products := [prodWithFile], orders := [] } [itemB]) ∧
      s2.orders = ({ products := [prodWithFile], orders := [] } : Store).orders ++ [od] :=
  ⟨by decide, C4_amount_formula { products := [prodWithFile], orders := [] }
    { customer_name := "Ada", customer_email := "a@x", items := [itemB] } 0 tkFn (by decide)⟩

/-- The spec's checkout scenario: two copies at price 9.99 give an amount of
exactly 19.98. -/
theorem order_amount_scenario :
    pyRound2 (cartTotal { products := [prodWithFile], orders := [] } [itemB]) = 999 / 50 := by
  have h : cartTotal { products := [prodWithFile], orders := [] } [itemB] =
      (999 / 100 : ℚ) * ((2 : Nat) : ℚ) + 0 := rfl
  rw [h]
  norm_num [pyRound2, roundHalfEven]

/-- C5: a token carried by no stored download link resolves to the NotFound
error `Invalid token` (404); a token all of whose stored links have a
timestamp `expires_at` strictly before `now` resolves to the `Link expired`
error (410), which differs from the NotFound error. -/
theorem C5_expired_vs_notfound (s : Store) (tok : String) (now : Int)
    (parse : String → Option Int) :
    ((∀ o ∈ s.orders, ∀ dl ∈ o.download_links, dl.token ≠ tok) →
      (resolve_download s tok now parse).1 =
        Except.error (PyError.http 404 "Invalid token")) ∧
    ((∃ o ∈ s.orders, ∃ dl ∈ o.download_links, dl.token = tok) →
     (∀ o ∈ s.orders, ∀ dl ∈ o.download_links, dl.token = tok →
       ∃ t, dl.expires_at = some (TimeVal.dt t) ∧ now > t) →
      (resolve_download s tok now parse).1 =
        Except.error (PyError.http 410 "Link expired") ∧
      PyError.http 410 "Link expired" ≠ PyError.http 404 "Invalid token") := by
  constructor
  · intro hnone
    have hfind : findOrderWithToken s tok = none := by
      rw [findOrderWithToken, List.find?_eq_none]
      intro o ho hany
      rw [List.any_eq_true] at hany
      obtain ⟨dl, hdl, hbeq⟩ := hany
      exact hnone o ho dl hdl (by simpa using hbeq)
    simp [resolve_download, resolveResult, hfind]
  · intro hex hallexp
    have hsome :
        (s.orders.find? (fun o => o.download_links.any (fun dl => dl.token == tok))).isSome
          = true := by
      rw [List.find?_isSome]
      obtain ⟨o, ho, dl, hdl, htok⟩ := hex
      exact ⟨o, ho, by rw [List.any_eq_true]; exact ⟨dl, hdl, by simp [htok]⟩⟩
    obtain ⟨o, hfind⟩ := Option.isSome_iff_exists.mp hsome
    have hoMem : o ∈ s.orders := List.mem_of_find?_eq_some hfind
    have hpred := List.find?_some hfind
    rw [List.any_eq_true] at hpred
    have hlsome : (o.download_links.find? (fun dl => dl.token == tok)).isSome = true := by
      rw [List.find?_isSome]
      obtain ⟨dl, hdl, hbeq⟩ := hpred
      exact ⟨dl, hdl, hbeq⟩
    obtain ⟨link, hlink⟩ := Option.isSome_iff_exists.mp hlsome
    have hlinkMem : link ∈ o.download_links := List.mem_of_find?_eq_some hlink
    have hlinkTok : link.token = tok := by simpa using List.find?_some hlink
    obtain ⟨t, hexp, hgt⟩ := hallexp o hoMem link hlinkMem hlinkTok
    refine ⟨?_, by decide⟩
    simp [resolve_download, resolveResult, findOrderWithToken, hfind, hlink,
      expiryCheck, hexp, hgt]

/-- C5 witness: an empty store rejects an unknown token with 404, and a
store whose only link for the token expired at time -1 answers 410 at
time 5. -/
theorem C5_witness :
    (resolve_download { products := [], orders := [] } "T" 5 isoNone).1 =
      Except.error (PyError.http 404 "Invalid token") ∧
    (resolve_download { products := [prodWithFile], orders := [ordExpired] } "T" 5
        isoNone).1 =
      Except.error (PyError.http 410 "Link expired") := by
  constructor
  · exact (C5_expired_vs_notfound { products := [], orders := [] } "T" 5 isoNone).1
      (by decide)
  · refine (((C5_expired_vs_notfound { products := [prodWithFile], orders := [ordExpired] }
      "T" 5 isoNone).2 (by decide) ?_)).1
    intro o ho dl hdl htok
    rw [List.mem_singleton] at ho
    subst ho
    have hdl2 : dl = ⟨"bbbbbbbbbbbbbbbbbbbbbbbb", "T", some (TimeVal.dt (-1))⟩ := by
      simpa [ordExpired] using hdl
    subst hdl2
    exact ⟨-1, rfl, by norm_num⟩

/-- C6: a successful `place_order` yields an order with status `"paid"` and
exactly one download link per cart item; the k-th link carries the k-th
item's `product_id`, the token minted at iteration k, and
`expires_at = now + 7 days`. -/
theorem C6_paid_with_links (s : Store) (p : OrderIn) (now : Int)
    (tokens : Nat → String)
    (hfound : ∀ it ∈ p.items, isValidObjectId it.product_id = true ∧
      (lookupProduct s it.product_id).isSome = true) :
    ∃ s2 od, create_order s p now tokens = Except.ok (s2, od) ∧
      od.status = "paid" ∧
      od.download_links.length = p.items.length ∧
      ∀ k (hk : k < p.items.length) (hk2 : k < od.download_links.length),
        od.download_links.get ⟨k, hk2⟩ =
          { product_id := (p.items.get ⟨k, hk⟩).product_id, token := tokens k,
            expires_at := some (TimeVal.dt (now + 7 * 86400)) } := by
  refine ⟨_, _, create_order_ok_of_found s p now tokens hfound, rfl, ?_, ?_⟩
  · exact mintLinks_length p.items tokens (now + 7 * 86400)
  · intro k hk hk2
    exact mintLinks_get p.items tokens (now + 7 * 86400) k hk hk2

/-- C6 witness: the one-item cart scenario, evaluated at time 0. -/
theorem C6_witness :
    ∃ s2 od, create_order { products := [prodWithFile], orders := [] }
        { customer_name := "Ada", customer_email := "a@x", items := [itemB] } 0 tkFn =
        Except.ok (s2, od) ∧
      od.status = "paid" ∧
      od.download_links.length = [itemB].length ∧
      ∀ k (hk : k < [itemB].length) (hk2 : k < od.download_links.length),
        od.download_links.get ⟨k, hk2⟩ =
          { product_id := ([itemB].get ⟨k, hk⟩).product_id, token := tkFn k,
            expires_at := some (TimeVal.dt (0 + 7 * 86400)) } :=
  C6_paid_with_links { products := [prodWithFile], orders := [] }
    { customer_name := "Ada", customer_email := "a@x", items := [itemB] } 0 tkFn (by decide)

/-- C7: `resolve_download` is side-effect-free and idempotent: it returns
the store it was given unchanged, and running it again on the store left by
the first call returns the same result. -/
theorem C7_resolve_idempotent (s : Store) (tok : String) (now : Int)
    (parse : String → Option Int) :
    (resolve_download s tok now parse).2 = s ∧
    (resolve_download (resolve_download s tok now parse).2 tok now parse).1 =
      (resolve_download s tok now parse).1 :=
  ⟨rfl, rfl⟩

/-- C9 counterexample: a stored link whose `expires_at` is the nonempty
unparseable string `not-a-date` does not make `resolve_download` skip the
expiry check and proceed — the nonempty string is truthy, so
`"not-a-date".replace(tzinfo=utc)` raises a `TypeError`, even though the
product and its `file_url` exist. -/
theorem C9_counterexample :
    (resolve_download { products := [prodWithFile], orders := [ordBadExp] } "T" 5 isoNone).1 =
      Except.error PyError.typeError := by
  rfl

/-- C9 (amended): when the matching link's `expires_at` is absent, null or
the empty string, the expiry check is skipped and the result can never be
the 410 `Link expired` error; but a nonempty string that
`datetime.fromisoformat` rejects makes `resolve_download` raise a
`TypeError` rather than proceed. -/
theorem C9_unparseable_expiry (s : Store) (tok : String) (now : Int)
    (parse : String → Option Int) (o : OrderDoc) (link : LinkDoc)
    (ho : findOrderWithToken s tok = some o)
    (hl : o.download_links.find? (fun dl => dl.token == tok) = some link)
    (hE : parse "" = none) :
    ((link.expires_at = none ∨ link.expires_at = some (TimeVal.str "")) →
      expiryCheck link.expires_at now parse = Except.ok () ∧
      (resolve_download s tok now parse).1 ≠
        Except.error (PyError.http 410 "Link expired")) ∧
    (∀ str, link.expires_at = some (TimeVal.str str) → str ≠ "" → parse str = none →
      (resolve_download s tok now parse).1 = Except.error PyError.typeError) := by
  constructor
  · intro hcase
    have hok : expiryCheck link.expires_at now parse = Except.ok () := by
      rcases hcase with h | h <;> simp [expiryCheck, h, hE]
    refine ⟨hok, ?_⟩
    simp only [resolve_download, resolveResult, ho, hl, hok]
    by_cases hv : isValidObjectId link.product_id = true
    · simp only [PyObjectId.validate, hv, if_true]
      cases hp : lookupProduct s link.product_id with
      | none => simp
      | some prod =>
        cases hf : prod.file_url with
        | none => simp [hf]
        | some u =>
          by_cases hu : u = ""
          · simp [hf, hu]
          · simp [hf, hu]
    · simp [PyObjectId.validate, hv]
  · intro str hstr hne hparse
    simp [resolve_download, resolveResult, ho, hl, expiryCheck, hstr, hparse, hne]

/-- C9 witness: the amended statement evaluated on a link with the
unparseable string and on a link with no `expires_at` at all. -/
theorem C9_witness :
    (resolve_download { products := [prodWithFile], orders := [ordBadExp] } "T" 5 isoNone).1 =
      Except.error PyError.typeError ∧
    expiryCheck (none : Option TimeVal) 5 isoNone = Except.ok () := by
  constructor
  · exact (C9_unparseable_expiry { products := [prodWithFile], orders := [ordBadExp] }
      "T" 5 isoNone ordBadExp
      ⟨"bbbbbbbbbbbbbbbbbbbbbbbb", "T", some (TimeVal.str "not-a-date")⟩
      rfl rfl rfl).2 "not-a-date" rfl (by decide) rfl
  · exact ((C9_unparseable_expiry { products := [prodWithFile], orders := [ordNoExp] }
      "T" 5 isoNone ordNoExp
      ⟨"bbbbbbbbbbbbbbbbbbbbbbbb", "T", none⟩
      rfl rfl rfl).1 (Or.inl rfl)).1

/-- C10: an item id (at order time) or a stored link id (at resolve time)
that is not a 24-character hex string makes the operation raise
`ValueError("Invalid ObjectId")` instead of the documented NotFound error;
for `place_order` this is the outcome whenever all items before the invalid
one validate and resolve. -/
theorem C10_invalid_objectid (s : Store) (now : Int) (tokens : Nat → String)
    (parse : String → Option Int) :
    (∀ name email pre item rest,
      (∀ it ∈ pre, isValidObjectId it.product_id = true ∧
        (lookupProduct s it.product_id).isSome = true) →
      isValidObjectId item.product_id = false →
      create_order s
          { customer_name := name, customer_email := email,
            items := pre ++ item :: rest } now tokens =
        Except.error (PyError.valueError "Invalid ObjectId")) ∧
    (∀ tok o link,
      findOrderWithToken s tok = some o →
      o.download_links.find? (fun dl => dl.token == tok) = some link →
      expiryCheck link.expires_at now parse = Except.ok () →
      isValidObjectId link.product_id = false →
      (resolve_download s tok now parse).1 =
        Except.error (PyError.valueError "Invalid ObjectId")) := by
  constructor
  · intro name email pre item rest hpre hinv
    have h := validateItems_err_invalid s pre item rest hpre hinv
    simp [create_order, h]
  · intro tok o link ho hl hexp hinv
    simp [resolve_download, resolveResult, ho, hl, hexp, PyObjectId.validate, hinv]

/-- C10 witness: the invalid id `nothex` raises ValueError both as an order
item and as a stored link's product id. -/
theorem C10_witness :
    create_order { products := [], orders := [] }
        { customer_name := "a", customer_email := "b",
          items := [{ product_id := "nothex", quantity := 1 }] } 0 tkFn =
      Except.error (PyError.valueError "Invalid ObjectId") ∧
    (resolve_download { products := [], orders := [ordBadPid] } "T" 0 isoNone).1 =
      Except.error (PyError.valueError "Invalid ObjectId") := by
  constructor
  · exact (C10_invalid_objectid { products := [], orders := [] } 0 tkFn isoNone).1
      "a" "b" [] { product_id := "nothex", quantity := 1 } [] (by decide) (by decide)
  · exact (C10_invalid_objectid { products := [], orders := [ordBadPid] } 0 tkFn isoNone).2
      "T" ordBadPid ⟨"nothex", "T", none⟩ rfl rfl rfl (by decide)

/-- C8: `place_order` accepts an empty cart regardless of the customer
strings: it succeeds and persists exactly one order with status `"paid"`,
amount 0, an empty items list and an empty download-links list. -/
theorem C8_empty_cart_accepted (s : Store) (name email : String) (now : Int)
    (tokens : Nat → String) :
    create_order s { customer_name := name, customer_email := email, items := [] }
        now tokens =
      Except.ok
        ({ products := s.products,
           orders := s.orders ++
             [{ id := freshOrderId s, status := "paid", amount := 0, items := [],
                customer_name := name, customer_email := email, download_links := [] }] },
         { id := freshOrderId s, status := "paid", amount := 0, items := [],
           customer_name := name, customer_email := email, download_links := [] }) := by
  simp [create_order, validateItems, mintLinks, mintLinksAux, pyRound2_zero]
